import Mathlib

/-!
Shallow embedding of the FINAI contact/loan intake server (`server.js`):
an Express application backed by a sqlite3 database file `contactData.db`
with a single table `contact_data(id INTEGER PRIMARY KEY AUTOINCREMENT,
name TEXT NOT NULL, email TEXT NOT NULL, contact TEXT, message TEXT NOT NULL)`.

The embedding models:
- the persistent store (table presence, the AUTOINCREMENT sequence, the rows);
- the `CREATE TABLE IF NOT EXISTS` schema step;
- the `POST /submit-contact` handler, including its truthiness validation
  `if (!name || !email || !message)` and the success and error branches of
  the insert callback;
- the `POST /api/submit-loan` stub handler and the `GET /` liveness handler;
- the top-level startup sequence (database open, schema creation, `app.listen`).

Storage-write failure is environment nondeterminism and is passed in as an
explicit flag, as is the error reported by the sqlite layer at startup.
-/

/-- A persisted row of the `contact_data` table. `contact` is the only
nullable column. -/
structure Record where
  id : Nat
  name : String
  email : String
  contact : Option String
  message : String
  deriving Repr, DecidableEq

/-- The persistent store: how many `contact_data` tables exist (0 before the
schema step, 1 after; `CREATE TABLE IF NOT EXISTS` never makes a second one),
the AUTOINCREMENT sequence (the highest id ever assigned; sqlite starts it at
0 so the first row gets id 1), and the rows in insertion order. -/
structure Store where
  contactTableCount : Nat
  seq : Nat
  rows : List Record
  deriving Repr, DecidableEq

/-- The store of a fresh `contactData.db` file: no table, sequence 0, no rows. -/
def emptyStore : Store := { contactTableCount := 0, seq := 0, rows := [] }

/-- `db.run(CREATE TABLE IF NOT EXISTS contact_data ...)`: creates the table
when absent, does nothing when present; neither case reports an error. -/
def ensureSchema (s : Store) : Store × Option String :=
  if s.contactTableCount = 0 then
    ({ s with contactTableCount := 1 }, none)
  else
    (s, none)

/-- The store state after the startup schema step on a fresh database file. -/
def initialStore : Store := (ensureSchema emptyStore).1

/-- Result of `db.run(INSERT ...)`: either the updated store together with
`this.lastID`, or an error message passed to the callback. -/
inductive InsertResult where
  | ok (s : Store) (lastID : Nat)
  | error (msg : String)
  deriving Repr, DecidableEq

/-- The sqlite insert into `contact_data`. On success the AUTOINCREMENT
sequence advances and the new row, carrying the fresh id, is appended;
`lastID` is that id. When the write fails (disk full, lock contention,
corruption) the callback receives an error and the store is unchanged. -/
def dbInsert (s : Store) (name email : String) (contact : Option String)
    (message : String) (writeFails : Bool) : InsertResult :=
  if writeFails then
    .error "SQLITE_ERROR"
  else
    let newId := s.seq + 1
    .ok { s with
            seq := newId,
            rows := s.rows ++ [{ id := newId, name := name, email := email,
                                 contact := contact, message := message }] }
        newId

/-- A JSON response body produced by the handlers: `{error: ...}`,
`{message: ..., id: ...}`, `{message: ...}`, or a plain-text send. -/
inductive Body where
  | errObj (error : String)
  | msgIdObj (message : String) (id : Nat)
  | msgObj (message : String)
  | text (s : String)
  deriving Repr, DecidableEq

/-- An HTTP response: status code and body. -/
structure Response where
  status : Nat
  body : Body
  deriving Repr, DecidableEq

/-- What one request handler produces: the response sent, the store after the
request, and the console log lines emitted while handling it. -/
structure HandlerOut where
  resp : Response
  store : Store
  logs : List String
  deriving Repr, DecidableEq

/-- The JSON body of a `POST /submit-contact` request: each field either
absent (`none`) or a string. -/
structure ContactBody where
  name : Option String
  email : Option String
  contact : Option String
  message : Option String
  deriving Repr, DecidableEq

/-- JavaScript truthiness of an optional string field: `undefined` and the
empty string are falsy, every other string is truthy. -/
def truthy : Option String → Bool
  | none => false
  | some s => s != ""

/-- The `POST /submit-contact` handler. Mirrors the source: the request is
rejected with status 400 when `!name || !email || !message`; otherwise the
row is inserted, and the callback answers 500 on an insert error (logging it)
or 200 with the confirmation message and `this.lastID`. -/
def submitContact (s : Store) (b : ContactBody) (writeFails : Bool) : HandlerOut :=
  if !truthy b.name || !truthy b.email || !truthy b.message then
    { resp := { status := 400, body := .errObj "Name, email, and message are required." },
      store := s, logs := [] }
  else
    match dbInsert s (b.name.getD "") (b.email.getD "") b.contact
        (b.message.getD "") writeFails with
    | .error msg =>
      { resp := { status := 500, body := .errObj "Failed to save contact data." },
        store := s,
        logs := ["Error inserting data into database: " ++ msg] }
    | .ok s' lastID =>
      { resp := { status := 200,
                  body := .msgIdObj "Contact data saved successfully!" lastID },
        store := s', logs := [] }

/-- The `POST /api/submit-loan` stub handler: logs receipt of the (raw) body
and unconditionally answers 200 with a fixed message; the store is untouched. -/
def submitLoan (s : Store) (body : String) : HandlerOut :=
  { resp := { status := 200, body := .msgObj "Loan application submitted successfully." },
    store := s,
    logs := ["Loan application received: " ++ body] }

/-- The `GET /` handler: always sends the fixed liveness string. -/
def getRoot (s : Store) : HandlerOut :=
  { resp := { status := 200, body := .text "Server is running" },
    store := s, logs := [] }

/-- One inbound request of the core HTTP surface. -/
inductive Request where
  | contactReq (b : ContactBody) (writeFails : Bool)
  | loanReq (body : String)
  | rootReq
  deriving Repr, DecidableEq

/-- Dispatch one request to its handler. -/
def step (s : Store) (r : Request) : HandlerOut :=
  match r with
  | .contactReq b wf => submitContact s b wf
  | .loanReq body => submitLoan s body
  | .rootReq => getRoot s

/-- Run a sequence of requests against the store, collecting the responses in
order together with the final store. Models one process lifetime. -/
def runRequests (s : Store) : List Request → List Response × Store
  | [] => ([], s)
  | r :: rs =>
    ((step s r).resp :: (runRequests (step s r).store rs).1,
     (runRequests (step s r).store rs).2)

/-- Extract the id from a successful `POST /submit-contact` response;
`none` for every other response shape. -/
def successId (r : Response) : Option Nat :=
  match r.status, r.body with
  | 200, .msgIdObj _ i => some i
  | _, _ => none

/-- Outcome of the startup sequence and the event-loop window that follows
it: the responses served before the schema step resolved, whether the
service completed the transition to ready, and the exit code if the process
terminated (`none` means it kept running). -/
structure StartupOutcome where
  windowServed : List Response
  readyReached : Bool
  exitCode : Option Nat
  deriving Repr, DecidableEq

/-- The top-level statements of the server source together with the
asynchronous semantics of node-sqlite3 and the Node event loop. The
`new sqlite3.Database` callback only logs, and the queued
`db.run(CREATE TABLE ...)` resolves later, so an unopenable database file
also surfaces as the schema step failing. `app.listen(5000)` opens the
socket synchronously, before the schema step resolves; a `GET /` probe
arriving in that window (`probeInWindow`) is answered by `getRoot` on the
store whose table does not yet exist, without touching the database. When
the schema step fails, its `db.run` was given no callback, so the `Database`
object emits an `error` event; the source registers no `error` listener, so
Node raises it as an uncaught exception and the process terminates with exit
code 1, serving nothing further and never completing the transition to
ready. When the schema step succeeds the table exists and the service is
ready. -/
def startupServe (schemaErr : Option String) (probeInWindow : Bool) : StartupOutcome :=
  let windowResponses := if probeInWindow then [(getRoot emptyStore).resp] else []
  match schemaErr with
  | some _ =>
    { windowServed := windowResponses
      readyReached := false
      exitCode := some 1 }
  | none =>
    { windowServed := windowResponses
      readyReached := true
      exitCode := none }

/-- Boolean check that every stored row has non-empty required fields. -/
def allRecordsNonempty (s : Store) : Bool :=
  s.rows.all fun r => !(r.name == "") && !(r.email == "") && !(r.message == "")

/-! ## Helper lemmas -/

/-- A truthy optional string field is a non-empty string, so defaulting the
option yields a string different from the empty string. -/
theorem truthy_getD_ne (o : Option String) (h : truthy o = true) :
    (o.getD "" == "") = false := by
  cases o with
  | none => simp [truthy] at h
  | some s =>
    simp only [truthy, bne] at h
    simpa using h

/-- A concrete valid contact body, matching the worked example of the spec. -/
def ashaBody : ContactBody :=
  { name := some "Asha", email := some "asha@example.com", contact := none,
    message := some "Interested in a loan" }

/-! ## Claim theorems -/

/-- C1: any `POST /submit-contact` request in which `name`, `email`, or
`message` is absent or the empty string is answered with the 400 validation
error and leaves the store unchanged (no row inserted); and a request whose
three required fields are present and non-empty is never answered 400, even
when `contact` is absent. -/
theorem submitContact_missing_field_rejected (s : Store) (b : ContactBody) (wf : Bool)
    (h : truthy b.name = false ∨ truthy b.email = false ∨ truthy b.message = false) :
    (submitContact s b wf).resp =
      { status := 400, body := .errObj "Name, email, and message are required." } ∧
    (submitContact s b wf).store = s ∧
    ∀ b' : ContactBody, truthy b'.name = true → truthy b'.email = true →
      truthy b'.message = true → b'.contact = none →
      (submitContact s b' wf).resp.status ≠ 400 := by
  have hcond : (!truthy b.name || !truthy b.email || !truthy b.message) = true := by
    rcases h with h | h | h <;> simp [h]
  refine ⟨by simp [submitContact, hcond], by simp [submitContact, hcond], ?_⟩
  intro b' hn he hm _hc
  cases wf <;> simp [submitContact, hn, he, hm, dbInsert]

/-- C1 witness: the concrete body with empty `name` is rejected with the 400
error, the store is unchanged, and the valid example body is not answered 400. -/
theorem submitContact_missing_field_rejected_witness :
    (submitContact initialStore
        { name := some "", email := some "a@b.com", contact := none,
          message := some "hi" } false).resp =
      { status := 400, body := .errObj "Name, email, and message are required." } ∧
    (submitContact initialStore
        { name := some "", email := some "a@b.com", contact := none,
          message := some "hi" } false).store = initialStore ∧
    ∀ b' : ContactBody, truthy b'.name = true → truthy b'.email = true →
      truthy b'.message = true → b'.contact = none →
      (submitContact initialStore b' false).resp.status ≠ 400 :=
  submitContact_missing_field_rejected initialStore
    { name := some "", email := some "a@b.com", contact := none,
      message := some "hi" } false (Or.inl (by decide))

/-- C2: a `POST /submit-contact` request with truthy `name`, `email`, and
`message` whose insert succeeds is answered 200 with the confirmation message
and the id freshly assigned by the store, and exactly that row, carrying that
id, is appended. -/
theorem submitContact_success_response (s : Store) (b : ContactBody)
    (hn : truthy b.name = true) (he : truthy b.email = true)
    (hm : truthy b.message = true) :
    (submitContact s b false).resp =
      { status := 200,
        body := .msgIdObj "Contact data saved successfully!" (s.seq + 1) } ∧
    (submitContact s b false).store.rows =
      s.rows ++ [{ id := s.seq + 1, name := b.name.getD "",
                   email := b.email.getD "", contact := b.contact,
                   message := b.message.getD "" }] := by
  constructor <;> simp [submitContact, hn, he, hm, dbInsert]

/-- C2 witness: the worked example of the spec, submitted to the fresh store,
is answered 200 with id 1 and its row is stored with id 1. -/
theorem submitContact_success_response_witness :
    (submitContact initialStore ashaBody false).resp =
      { status := 200,
        body := .msgIdObj "Contact data saved successfully!" (initialStore.seq + 1) } ∧
    (submitContact initialStore ashaBody false).store.rows =
      initialStore.rows ++
        [{ id := initialStore.seq + 1, name := ashaBody.name.getD "",
           email := ashaBody.email.getD "", contact := ashaBody.contact,
           message := ashaBody.message.getD "" }] :=
  submitContact_success_response initialStore ashaBody (by decide) (by decide)
    (by decide)

/-- C4: a validated `POST /submit-contact` request whose insert fails is
answered with the 500 storage error and the store is unchanged (no record
created); the handler returns a response rather than raising, so the process
keeps running. -/
theorem submitContact_storage_failure (s : Store) (b : ContactBody)
    (hn : truthy b.name = true) (he : truthy b.email = true)
    (hm : truthy b.message = true) :
    (submitContact s b true).resp =
      { status := 500, body := .errObj "Failed to save contact data." } ∧
    (submitContact s b true).store = s := by
  constructor <;> simp [submitContact, hn, he, hm, dbInsert]

/-- C4 witness: the worked example body with a failing write is answered 500
and the fresh store is unchanged. -/
theorem submitContact_storage_failure_witness :
    (submitContact initialStore ashaBody true).resp =
      { status := 500, body := .errObj "Failed to save contact data." } ∧
    (submitContact initialStore ashaBody true).store = initialStore :=
  submitContact_storage_failure initialStore ashaBody (by decide) (by decide)
    (by decide)

/-- C5 counterexample: with a failing schema step and a liveness probe
arriving in the window between `app.listen` and the resolution of the schema
step, the service does serve a request while the `contact_data` table is
missing (the store in the window has no table), so it is not the case that it
never accepts requests against a missing table — even though the process
then exits with code 1. -/
theorem startup_schema_window_counterexample :
    (startupServe (some "SQLITE_CANTOPEN: unable to open database file")
        true).windowServed ≠ [] ∧
    (startupServe (some "SQLITE_CANTOPEN: unable to open database file")
        true).windowServed =
      [{ status := 200, body := .text "Server is running" }] ∧
    emptyStore.contactTableCount = 0 ∧
    (startupServe (some "SQLITE_CANTOPEN: unable to open database file")
        true).exitCode = some 1 := by
  refine ⟨by decide, rfl, rfl, rfl⟩

/-- C5 amended: when schema creation fails at startup, the unhandled sqlite
`error` event terminates the process with exit code 1 (non-zero), the
service never completes the transition to ready, and nothing is served after
the crash; but because `app.listen` opens the socket before the schema step
resolves, a request arriving in that window is served even though the table
is missing. -/
theorem startup_schema_failure_never_ready (e : String) (probe : Bool) :
    (startupServe (some e) probe).readyReached = false ∧
    (startupServe (some e) probe).exitCode = some 1 ∧
    (startupServe (some e) probe).windowServed =
      (if probe then [(getRoot emptyStore).resp] else []) := by
  exact ⟨rfl, rfl, rfl⟩

/-- C7: `ensureSchema` is idempotent: on every store state it reports no
error, a second call reports no error and returns the identical store, and the
second call does not change the number of `contact_data` tables. -/
theorem ensureSchema_idempotent (s : Store) :
    (ensureSchema s).2 = none ∧
    (ensureSchema (ensureSchema s).1).2 = none ∧
    ensureSchema (ensureSchema s).1 = ensureSchema s ∧
    (ensureSchema (ensureSchema s).1).1.contactTableCount =
      (ensureSchema s).1.contactTableCount := by
  by_cases h : s.contactTableCount = 0 <;> simp [ensureSchema, h]

/-- C8: `POST /api/submit-loan` answers 200 with the fixed acknowledgment for
every request body, including the empty one; its only side effect is the
receipt log line, and the store is unchanged. -/
theorem submitLoan_always_acknowledges (s : Store) (body : String) :
    (submitLoan s body).resp =
      { status := 200, body := .msgObj "Loan application submitted successfully." } ∧
    (submitLoan s body).store = s ∧
    (submitLoan s body).logs = ["Loan application received: " ++ body] :=
  ⟨rfl, rfl, rfl⟩

/-- C9: `GET /` answers the same fixed liveness string on every store state
and leaves the store unchanged. -/
theorem getRoot_liveness (s : Store) :
    (getRoot s).resp = { status := 200, body := .text "Server is running" } ∧
    (getRoot s).store = s :=
  ⟨rfl, rfl⟩

/-- C10: every `POST /submit-contact` request rejected by validation gets
exactly the single fixed body `{error: "Name, email, and message are
required."}` with status 400, and any two rejected requests get the identical
response, whichever required field is missing or empty. -/
theorem validation_error_body_uniform (s : Store) (b : ContactBody) (wf : Bool)
    (h : (!truthy b.name || !truthy b.email || !truthy b.message) = true) :
    (submitContact s b wf).resp =
      { status := 400, body := .errObj "Name, email, and message are required." } ∧
    ∀ b' : ContactBody,
      (!truthy b'.name || !truthy b'.email || !truthy b'.message) = true →
      (submitContact s b' wf).resp = (submitContact s b wf).resp := by
  refine ⟨by simp [submitContact, h], ?_⟩
  intro b' h'
  simp [submitContact, h, h']

/-- C10 witness: a body missing `name` gets the fixed 400 error body, and a
body with empty `message` gets the identical response. -/
theorem validation_error_body_uniform_witness :
    (submitContact initialStore
        { name := none, email := some "a@b.com", contact := none,
          message := some "hi" } false).resp =
      { status := 400, body := .errObj "Name, email, and message are required." } ∧
    ∀ b' : ContactBody,
      (!truthy b'.name || !truthy b'.email || !truthy b'.message) = true →
      (submitContact initialStore b' false).resp =
        (submitContact initialStore
          { name := none, email := some "a@b.com", contact := none,
            message := some "hi" } false).resp :=
  validation_error_body_uniform initialStore
    { name := none, email := some "a@b.com", contact := none,
      message := some "hi" } false (by decide)

/-! ## Machinery for the id-monotonicity and stored-record invariants -/

/-- One request never decreases the AUTOINCREMENT sequence. -/
theorem step_seq_mono (s : Store) (r : Request) : s.seq ≤ (step s r).store.seq := by
  cases r with
  | contactReq b wf =>
    simp only [step, submitContact]
    split
    · exact Nat.le_refl _
    · cases wf <;> simp [dbInsert]
  | loanReq body => exact Nat.le_refl _
  | rootReq => exact Nat.le_refl _

/-- When a request is answered with a success id, that id is the freshly
advanced sequence value of the store after the request. -/
theorem step_successId_eq (s : Store) (r : Request) (i : Nat)
    (h : successId (step s r).resp = some i) :
    i = s.seq + 1 ∧ (step s r).store.seq = s.seq + 1 := by
  cases r with
  | contactReq b wf =>
    by_cases hc : (!truthy b.name || !truthy b.email || !truthy b.message) = true
    · simp [step, submitContact, hc, successId] at h
    · cases wf
      · simp [step, submitContact, hc, dbInsert, successId] at h ⊢
        omega
      · simp [step, submitContact, hc, dbInsert, successId] at h
  | loanReq body => simp [step, submitLoan, successId] at h
  | rootReq => simp [step, getRoot, successId] at h

/-- Every success id produced by a run is strictly above the sequence value
of the starting store. -/
theorem runRequests_ids_gt (s : Store) (rs : List Request) :
    ∀ i ∈ (runRequests s rs).1.filterMap successId, s.seq < i := by
  induction rs generalizing s with
  | nil => simp [runRequests]
  | cons r rs ih =>
    intro i hi
    simp only [runRequests, List.filterMap_cons] at hi
    cases hsucc : successId (step s r).resp with
    | none =>
      rw [hsucc] at hi
      have h1 := ih (step s r).store i hi
      have h2 := step_seq_mono s r
      omega
    | some j =>
      rw [hsucc] at hi
      rcases List.mem_cons.mp hi with h | h
      · have h3 := step_successId_eq s r j hsucc
        omega
      · have h1 := ih (step s r).store i h
        have h2 := step_seq_mono s r
        omega

/-- One request preserves the row/sequence bookkeeping: every stored id stays
at most the sequence value, and the stored ids stay strictly increasing in
insertion order. -/
theorem step_rows_ids (s : Store) (r : Request)
    (hb : ∀ q ∈ s.rows, q.id ≤ s.seq)
    (hp : (s.rows.map Record.id).Pairwise (· < ·)) :
    (∀ q ∈ (step s r).store.rows, q.id ≤ (step s r).store.seq) ∧
    ((step s r).store.rows.map Record.id).Pairwise (· < ·) := by
  cases r with
  | contactReq b wf =>
    by_cases hc : (!truthy b.name || !truthy b.email || !truthy b.message) = true
    · simpa [step, submitContact, hc] using ⟨hb, hp⟩
    · cases wf
      · simp only [step, submitContact, hc, dbInsert, Bool.false_eq_true,
          if_false, if_neg, Bool.not_eq_true] at *
        constructor
        · intro q hq
          simp only [List.mem_append, List.mem_singleton] at hq
          rcases hq with hq | hq
          · have := hb q hq; omega
          · subst hq; simp
        · rw [List.map_append, List.pairwise_append]
          refine ⟨hp, by simp, ?_⟩
          intro a ha b' hb'
          simp only [List.mem_map] at ha
          simp only [List.map_cons, List.map_nil, List.mem_singleton] at hb'
          rcases ha with ⟨q, hq, rfl⟩
          have := hb q hq
          omega
      · simpa [step, submitContact, hc, dbInsert] using ⟨hb, hp⟩
  | loanReq body => simpa [step, submitLoan] using ⟨hb, hp⟩
  | rootReq => simpa [step, getRoot] using ⟨hb, hp⟩

/-- A whole run preserves the row/sequence bookkeeping. -/
theorem runRequests_rows_ids (s : Store) (rs : List Request)
    (hb : ∀ q ∈ s.rows, q.id ≤ s.seq)
    (hp : (s.rows.map Record.id).Pairwise (· < ·)) :
    (∀ q ∈ (runRequests s rs).2.rows, q.id ≤ (runRequests s rs).2.seq) ∧
    ((runRequests s rs).2.rows.map Record.id).Pairwise (· < ·) := by
  induction rs generalizing s with
  | nil => exact ⟨hb, hp⟩
  | cons r rs ih =>
    have h := step_rows_ids s r hb hp
    simpa [runRequests] using ih (step s r).store h.1 h.2

/-- One request preserves non-emptiness of the required fields of all stored
rows: the only mutating branch inserts a row built from a body that passed
the truthiness validation. -/
theorem step_preserves_nonempty (s : Store) (r : Request)
    (h : allRecordsNonempty s = true) :
    allRecordsNonempty (step s r).store = true := by
  cases r with
  | contactReq b wf =>
    by_cases hc : (!truthy b.name || !truthy b.email || !truthy b.message) = true
    · simpa [step, submitContact, hc] using h
    · simp only [Bool.or_eq_true, Bool.not_eq_true', not_or] at hc
      have hn : truthy b.name = true := by
        have := hc.1.1
        simpa using Bool.of_not_eq_false this
      have he : truthy b.email = true := by
        have := hc.1.2
        simpa using Bool.of_not_eq_false this
      have hm : truthy b.message = true := by
        have := hc.2
        simpa using Bool.of_not_eq_false this
      cases wf
      · simp only [allRecordsNonempty, step, submitContact, hn, he, hm, dbInsert,
          Bool.not_true, Bool.or_self, Bool.false_or, Bool.or_false,
          Bool.false_eq_true, if_false, List.all_append, List.all_cons,
          List.all_nil, Bool.and_true] at h ⊢
        simp only [Bool.and_eq_true]
        exact ⟨h, by simp [truthy_getD_ne _ hn, truthy_getD_ne _ he,
          truthy_getD_ne _ hm]⟩
      · simpa [step, submitContact, hn, he, hm, dbInsert] using h
  | loanReq body => simpa [step, submitLoan] using h
  | rootReq => simpa [step, getRoot] using h

/-- A whole run preserves non-emptiness of the required fields. -/
theorem runRequests_preserves_nonempty (s : Store) (rs : List Request)
    (h : allRecordsNonempty s = true) :
    allRecordsNonempty (runRequests s rs).2 = true := by
  induction rs generalizing s with
  | nil => exact h
  | cons r rs ih =>
    simpa [runRequests] using ih (step s r).store (step_preserves_nonempty s r h)

/-- C3: within one process lifetime (a run of requests from the startup
store), the success ids returned by `POST /submit-contact`, in response
order, are strictly increasing — so any later success id exceeds every
earlier one and no id is ever reused — and the ids stored in the rows are
strictly increasing in insertion order, each assigned exactly once by the
store at insert. -/
theorem success_ids_strictly_increasing (rs : List Request) :
    (((runRequests initialStore rs).1.filterMap successId).Pairwise (· < ·)) ∧
    (((runRequests initialStore rs).2.rows.map Record.id).Pairwise (· < ·)) := by
  constructor
  · have main : ∀ s : Store, ∀ rs' : List Request,
        ((runRequests s rs').1.filterMap successId).Pairwise (· < ·) := by
      intro s rs'
      induction rs' generalizing s with
      | nil => simp [runRequests]
      | cons r rs'' ih =>
        simp only [runRequests, List.filterMap_cons]
        cases hsucc : successId (step s r).resp with
        | none => exact ih (step s r).store
        | some j =>
          refine List.Pairwise.cons ?_ (ih (step s r).store)
          intro k hk
          have h1 := runRequests_ids_gt (step s r).store rs'' k hk
          have h2 := step_successId_eq s r j hsucc
          omega
    exact main initialStore rs
  · exact (runRequests_rows_ids initialStore rs (by simp [initialStore,
      ensureSchema, emptyStore]) (by simp [initialStore, ensureSchema,
      emptyStore])).2

/-- C6: invariant over all store states reachable from startup by any
sequence of requests: every stored record has non-empty `name`, `email`, and
`message`; the insert done by `POST /submit-contact` is the only mutating
operation and it preserves the invariant. -/
theorem stored_records_nonempty (rs : List Request) :
    allRecordsNonempty (runRequests initialStore rs).2 = true :=
  runRequests_preserves_nonempty initialStore rs (by decide)
